import Mathlib

/-!
Verification of the polling / orchestration examples of the mindzieApiExamples
repository.

Python strings are modelled as `List Char` ; Python's `str.lower` becomes
`pyLower` (character-wise `Char.toLower`, which agrees with Python on the
ASCII status strings handled here).  The two polling loops
(`ExecutionMonitor.monitor` in `monitor_action_execution.py` and
`ActionWorkflow.step_3_monitor_execution` in `action_execution_workflow.py`)
are embedded with an idealised clock: the elapsed time at the top of loop
iteration `i` is `i * interval` seconds (each iteration ends in
`time.sleep(interval)` and the fetch itself is instantaneous).  The remote
fetch is a parameter giving the status reported on each poll.  Loops are
written on fuel; the driver functions supply enough fuel, and `none` marks
the (non-)case of fuel exhaustion.
-/

/-- Python string model. -/
abbrev PyStr := List Char

/-- Model of Python `str.lower()` (ASCII). -/
def pyLower (s : PyStr) : PyStr := s.map Char.toLower

/-! ## ExecutionMonitor (monitor_action_execution.py) -/

/-- The list `terminal_statuses` of `ExecutionMonitor.is_terminal_status`
(monitor_action_execution.py lines 56-59). -/
def terminal_statuses : List PyStr :=
  ["completed".toList, "finished".toList, "success".toList, "failed".toList,
   "error".toList, "cancelled".toList, "aborted".toList, "timeout".toList]

/-- `ExecutionMonitor.is_terminal_status`:
`return status.lower() in terminal_statuses`. -/
def is_terminal_status (status : PyStr) : Bool :=
  terminal_statuses.contains (pyLower status)

/-- The success sub-list `['completed', 'finished', 'success']` tested at
monitor_action_execution.py line 129 (also at action_execution_workflow.py
line 147). -/
def success_statuses : List PyStr :=
  ["completed".toList, "finished".toList, "success".toList]

/-- The failure outcomes of the terminal set: statuses that are terminal for
`ExecutionMonitor` but not in `success_statuses`. -/
def monitor_failure_statuses : List PyStr :=
  ["failed".toList, "error".toList, "cancelled".toList, "aborted".toList,
   "timeout".toList]

/-- The status string produced by `ExecutionMonitor.get_current_status` when
the remote fetch raises an exception `e`: `f'Error: {e}'`
(monitor_action_execution.py line 52). -/
def get_current_status_error (msg : PyStr) : PyStr := "Error: ".toList ++ msg

/-- Observable outcome of one `ExecutionMonitor.monitor` run: the success
print branch (line 130), the failure print branch (line 132), or the timeout
branch (line 114). -/
inductive MonitorOutcome where
  | success (status : PyStr)
  | failure (status : PyStr)
  | timedOut
  deriving DecidableEq, Repr

/-- One step of the `while True:` loop of `ExecutionMonitor.monitor`
(monitor_action_execution.py lines 108-143), at loop iteration `i`
(0-based, idealised elapsed time `i * interval`):
first the timeout test `elapsed_time > max_duration` (line 113), then the
fetch `get_current_status` (line 118), then the terminal-status test
(lines 128-140) splitting on `success_statuses`, else `sleep` and loop.
The second component of the result counts fetches performed. -/
def monitorFrom (fetch : Nat → PyStr) (interval maxDuration : Nat) :
    Nat → Nat → Option (MonitorOutcome × Nat)
  | 0, _ => none
  | fuel + 1, i =>
    if maxDuration < i * interval then
      some (MonitorOutcome.timedOut, i)
    else
      let status := fetch i
      if is_terminal_status status then
        if success_statuses.contains (pyLower status) then
          some (MonitorOutcome.success status, i + 1)
        else
          some (MonitorOutcome.failure status, i + 1)
      else
        monitorFrom fetch interval maxDuration fuel (i + 1)

/-- `ExecutionMonitor.monitor(check_interval, max_duration)` with the fetch
trace `fetch`: run the loop from iteration 0 with enough fuel (`none` only
when the loop would run forever, e.g. `interval = 0`). -/
def ExecutionMonitor.monitor (fetch : Nat → PyStr) (interval maxDuration : Nat) :
    Option (MonitorOutcome × Nat) :=
  monitorFrom fetch interval maxDuration (maxDuration / interval + 2) 0

/-! ## ActionWorkflow.step_3_monitor_execution (action_execution_workflow.py) -/

/-- The terminal list tested at action_execution_workflow.py line 146:
`['completed', 'finished', 'success', 'failed', 'error', 'cancelled']`. -/
def workflow_terminal_statuses : List PyStr :=
  ["completed".toList, "finished".toList, "success".toList, "failed".toList,
   "error".toList, "cancelled".toList]

/-- Observable outcome of `ActionWorkflow.step_3_monitor_execution`:
return of the execution record after the success print (line 148) or the
failure print (line 150), the `break` on a falsy fetch result (line 157),
or the timeout fall-through returning `None` (lines 160-161). -/
inductive StepResult where
  | finishedSuccess (status : PyStr)
  | finishedFailure (status : PyStr)
  | fetchFailed
  | timedOut
  deriving DecidableEq, Repr

/-- The `while (datetime.now() - start_time).total_seconds() < max_wait_time:`
loop of `ActionWorkflow.step_3_monitor_execution` (lines 122-161), with the
hard-coded `check_interval = 5` (line 113) and idealised elapsed time
`i * 5` at iteration `i`.  `fetch i = none` models a falsy execution record.
The second component of the result counts fetches performed. -/
def step3From (fetch : Nat → Option PyStr) (maxWait : Nat) :
    Nat → Nat → Option (StepResult × Nat)
  | 0, _ => none
  | fuel + 1, i =>
    if i * 5 < maxWait then
      match fetch i with
      | some status =>
        if workflow_terminal_statuses.contains (pyLower status) then
          if success_statuses.contains (pyLower status) then
            some (StepResult.finishedSuccess status, i + 1)
          else
            some (StepResult.finishedFailure status, i + 1)
        else
          step3From fetch maxWait fuel (i + 1)
      | none => some (StepResult.fetchFailed, i + 1)
    else
      some (StepResult.timedOut, i)

/-- `ActionWorkflow.step_3_monitor_execution(max_wait_time)` with fetch trace
`fetch`, run from iteration 0 with enough fuel. -/
def ActionWorkflow.step_3_monitor_execution (fetch : Nat → Option PyStr)
    (maxWait : Nat) : Option (StepResult × Nat) :=
  step3From fetch maxWait (maxWait / 5 + 2) 0

/-! ## ETLPipeline (workflows/etl_pipeline.py)

The remote calls (`datasets.create`, `enrichment.enrich_dataset`) are
parameters: each per-item call either returns a record or raises, and the
raise is caught by the per-item `try/except`.  A source that is not a dict
makes `source.get('name', 'Unknown')` (line 57) raise *outside* the
per-item `try`, which is the one exception that escapes a stage and reaches
the `except` of `run_pipeline`; it is modelled by `SourceItem.malformed`. -/

/-- A dataset record as consumed by the pipeline; only the
`record_count` field matters for the accumulated counts (`none` models a
dict without the `'record_count'` key). -/
structure Dataset where
  record_count : Option Nat
  deriving DecidableEq, Repr

/-- `dataset.get('record_count', 1000)` (etl_pipeline.py lines 81, 84 and the
load stage). -/
def Dataset.getRecordCount (d : Dataset) : Nat := d.record_count.getD 1000

/-- Outcome of processing one source in `ETLPipeline.extract_data`:
the create call returns a dataset, the create call raises (caught by the
per-item `try/except` at lines 59-87), or the source object itself is
malformed so that `source.get` raises outside the `try` (line 57) with
message `e`. -/
inductive SourceItem where
  | ok (d : Dataset)
  | callFailed
  | malformed (e : PyStr)
  deriving DecidableEq, Repr

/-- True exactly for `SourceItem.malformed`. -/
def SourceItem.isMalformed : SourceItem → Bool
  | .malformed _ => true
  | _ => false

/-- The dataset of a successful per-source call. -/
def SourceItem.toDataset : SourceItem → Option Dataset
  | .ok d => some d
  | _ => none

/-- The `extraction_results` dict of `ETLPipeline.extract_data`
(etl_pipeline.py lines 49-54). -/
structure ExtractionResults where
  sources_processed : Nat
  total_records : Nat
  datasets_created : List Dataset
  deriving DecidableEq, Repr

/-- The `for idx, source in enumerate(sources, 1):` loop of
`ETLPipeline.extract_data` (lines 56-87): a successful call appends the
dataset and adds its record count (lines 80-82); a caught per-item failure
only logs (line 87); a malformed source raises out of the loop. -/
def extract_loop : List SourceItem → ExtractionResults →
    Except PyStr ExtractionResults
  | [], acc => .ok acc
  | .malformed e :: _, _ => .error e
  | .ok d :: rest, acc =>
    extract_loop rest
      { acc with
        datasets_created := acc.datasets_created ++ [d]
        total_records := acc.total_records + d.getRecordCount
        sources_processed := acc.sources_processed + 1 }
  | .callFailed :: rest, acc => extract_loop rest acc

/-- `ETLPipeline.extract_data(sources)` (etl_pipeline.py lines 45-91). -/
def ETLPipeline.extract_data (sources : List SourceItem) :
    Except PyStr ExtractionResults :=
  extract_loop sources ⟨0, 0, []⟩

/-- The `type` of one transformation descriptor as dispatched by
`ETLPipeline.transform_data` (`'enrichment'`, `'validation'`, anything
else). -/
inductive TransformKind where
  | enrichment
  | validation
  | other
  deriving DecidableEq, Repr

/-- The `transformation_results` dict of `ETLPipeline.transform_data`. -/
structure TransformationResults where
  datasets_processed : Nat
  transformations_applied : Nat
  quality_checks_passed : Nat
  enriched_datasets : List Unit
  deriving DecidableEq, Repr

/-- The inner `for transform in transformations:` loop of
`ETLPipeline.transform_data` for one dataset; `enrich j` is the enrichment
call for the j-th transformation (`none` = the call raises, aborting the
rest of this dataset's transformations but keeping the counts mutated so
far).  Returns the updated results and whether the dataset completed
without an exception. -/
def applyTransforms (enrich : Nat → Option Unit) :
    List TransformKind → Nat → TransformationResults →
    TransformationResults × Bool
  | [], _, acc => (acc, true)
  | t :: rest, j, acc =>
    match t with
    | .enrichment =>
      match enrich j with
      | some r =>
        applyTransforms enrich rest (j + 1)
          { acc with
            enriched_datasets := acc.enriched_datasets ++ [r]
            transformations_applied := acc.transformations_applied + 1 }
      | none => (acc, false)
    | .validation =>
      applyTransforms enrich rest (j + 1)
        { acc with
          quality_checks_passed := acc.quality_checks_passed + 1
          transformations_applied := acc.transformations_applied + 1 }
    | .other =>
      applyTransforms enrich rest (j + 1)
        { acc with transformations_applied := acc.transformations_applied + 1 }

/-- The outer `for dataset in datasets:` loop of
`ETLPipeline.transform_data`; `datasets_processed` is only incremented when
the per-dataset `try` body runs to completion. -/
def transform_loop (enrich : Nat → Nat → Option Unit)
    (transforms : List TransformKind) :
    Nat → Nat → TransformationResults → TransformationResults
  | 0, _, acc => acc
  | n + 1, d, acc =>
    let (acc1, completed) := applyTransforms (enrich d) transforms 0 acc
    let acc2 :=
      if completed then
        { acc1 with datasets_processed := acc1.datasets_processed + 1 }
      else acc1
    transform_loop enrich transforms n (d + 1) acc2

/-- `ETLPipeline.transform_data(datasets, transformations)`; `numDatasets`
is the length of `datasets` (the datasets themselves only matter through
the `enrich` outcomes). -/
def ETLPipeline.transform_data (enrich : Nat → Nat → Option Unit)
    (numDatasets : Nat) (transforms : List TransformKind) :
    TransformationResults :=
  transform_loop enrich transforms numDatasets 0 ⟨0, 0, 0, []⟩

/-- The `load_results` dict of `ETLPipeline.load_data`; note the count key
is `total_records_loaded`, not `total_records`. -/
structure LoadResults where
  datasets_loaded : Nat
  total_records_loaded : Nat
  target_datasets : List Dataset
  deriving DecidableEq, Repr

/-- The `for dataset in datasets:` loop of `ETLPipeline.load_data`:
when the target type is `'dataset'`, each per-dataset create call either
returns the final dataset (counted at the three `+=` lines) or raises and
is caught; with any other target type the loop body does nothing. -/
def load_loop (targetIsDataset : Bool) :
    List (Option Dataset) → LoadResults → LoadResults
  | [], acc => acc
  | o :: rest, acc =>
    if targetIsDataset then
      match o with
      | some d =>
        load_loop targetIsDataset rest
          { acc with
            target_datasets := acc.target_datasets ++ [d]
            total_records_loaded := acc.total_records_loaded + d.getRecordCount
            datasets_loaded := acc.datasets_loaded + 1 }
      | none => load_loop targetIsDataset rest acc
    else
      load_loop targetIsDataset rest acc

/-- `ETLPipeline.load_data(datasets, target_config)`; `outcomes` has one
entry per dataset of `datasets_created` giving that create call's result. -/
def ETLPipeline.load_data (targetIsDataset : Bool)
    (outcomes : List (Option Dataset)) : LoadResults :=
  load_loop targetIsDataset outcomes ⟨0, 0, []⟩

/-- One entry of `self.steps`: the result dict appended by each stage. -/
inductive StepRecord where
  | extract (r : ExtractionResults)
  | transform (r : TransformationResults)
  | load (r : LoadResults)
  deriving DecidableEq, Repr

/-- `step.get('total_records', 0)` as summed by `run_pipeline`: only the
extract dict carries a `'total_records'` key (the transform dict has no
such key, and the load dict stores its count under
`'total_records_loaded'`). -/
def StepRecord.getTotalRecords : StepRecord → Nat
  | .extract r => r.total_records
  | .transform _ => 0
  | .load _ => 0

/-- The summary dict built by `ETLPipeline.run_pipeline` on the normal
path (status `"completed"`). -/
structure PipelineSummary where
  steps_completed : Nat
  total_records_processed : Nat
  final_datasets : List Dataset
  deriving DecidableEq, Repr

/-- Result of `ETLPipeline.run_pipeline`: the `"completed"` summary, or the
`except` branch's `"failed"` record carrying `str(e)` and
`len(self.steps)`. -/
inductive PipelineResult where
  | completed (s : PipelineSummary)
  | failed (error : PyStr) (steps_completed : Nat)
  deriving DecidableEq, Repr

/-- The `'status'` entry of the returned record. -/
def PipelineResult.status : PipelineResult → PyStr
  | .completed _ => "completed".toList
  | .failed _ _ => "failed".toList

/-- `ETLPipeline.run_pipeline(pipeline_config)`: extract, then transform and
load over `datasets_created`, then the summary; an exception escaping a
stage (a malformed source) lands in the `except` branch.  The second
component is the final `self.status`. -/
def ETLPipeline.run_pipeline (sources : List SourceItem)
    (transforms : List TransformKind) (enrich : Nat → Nat → Option Unit)
    (targetIsDataset : Bool) (loadOutcome : Nat → Option Dataset) :
    PipelineResult × PyStr :=
  match ETLPipeline.extract_data sources with
  | .error e => (PipelineResult.failed e 0, "failed".toList)
  | .ok er =>
    let tr := ETLPipeline.transform_data enrich er.datasets_created.length transforms
    let lr := ETLPipeline.load_data targetIsDataset
      (List.range er.datasets_created.length |>.map loadOutcome)
    let steps := [StepRecord.extract er, StepRecord.transform tr, StepRecord.load lr]
    (PipelineResult.completed
      { steps_completed := steps.length
        total_records_processed := (steps.map StepRecord.getTotalRecords).sum
        final_datasets := lr.target_datasets },
     "completed".toList)

/-! ## Credentials (projects/api_utils.py) -/

/-- The process environment restricted to the three variables read by
`load_credentials`; `none` = unset, `some s` = set to `s` (possibly empty). -/
structure Env where
  tenant : Option PyStr
  apiKey : Option PyStr
  apiUrl : Option PyStr

/-- Python truthiness of an `os.getenv` result: `None` and the empty string
are falsy. -/
def pyTruthy : Option PyStr → Bool
  | none => false
  | some s => !s.isEmpty

/-- Python `s.rstrip("/")`: remove all trailing `'/'` characters. -/
def rstripSlash (s : PyStr) : PyStr :=
  (s.reverse.dropWhile (fun c => c = '/')).reverse

/-- The default base URL of api_utils.py line 41. -/
def default_base_url : PyStr := "https://dev.mindziestudio.com".toList

/-- `load_credentials()` (api_utils.py lines 33-46): read the three
variables, default and rstrip the URL, and return `(None, None, None)` when
the tenant id or the API key is missing or empty. -/
def load_credentials (env : Env) :
    Option PyStr × Option PyStr × Option PyStr :=
  let base_url := rstripSlash (env.apiUrl.getD default_base_url)
  if !pyTruthy env.tenant || !pyTruthy env.apiKey then (none, none, none)
  else (env.tenant, env.apiKey, some base_url)

/-- Result of `get_client()` (api_utils.py lines 54-73):
`credentialError` is the `print_credential_error(); return None` branch;
`ok` carries the arguments passed to `MindzieAPIClient` (the constructor of
the external library is modelled as succeeding). -/
inductive GetClientResult where
  | ok (tenant apiKey baseUrl : PyStr)
  | credentialError
  deriving DecidableEq, Repr

/-- `get_client()`: `if not all([tenant_id, api_key, base_url])` print the
credential error and return `None`, else construct the client. -/
def get_client (env : Env) : GetClientResult :=
  match load_credentials env with
  | (t, k, b) =>
    if pyTruthy t && pyTruthy k && pyTruthy b then
      GetClientResult.ok (t.getD []) (k.getD []) (b.getD [])
    else
      GetClientResult.credentialError

/-! ## handle_api_error (common_utils.py) -/

/-- The exception taxonomy distinguished by the `isinstance` chain of
`handle_api_error` (common_utils.py lines 56-74); the payload of
`validation`, `mindzieOther` and `unexpected` is the `str(error)` text
interpolated into the printed line. -/
inductive ApiError where
  | authentication
  | notFound
  | validation (msg : PyStr)
  | timeout
  | server
  | mindzieOther (msg : PyStr)
  | unexpected (msg : PyStr)
  deriving DecidableEq, Repr

/-- `handle_api_error(error, operation)` (common_utils.py lines 49-74):
the list of lines printed, in order.  The function body is just these
prints: it returns `None`, re-raises nothing and retries nothing, which the
embedding reflects by being a total function into the printed lines. -/
def handle_api_error (e : ApiError) (operation : PyStr) : List PyStr :=
  match e with
  | .authentication =>
    ["[ERROR] Authentication failed during ".toList ++ operation,
     "Check your API credentials (MINDZIE_TENANT_ID and MINDZIE_API_KEY)".toList]
  | .notFound =>
    ["[ERROR] Resource not found during ".toList ++ operation,
     "The requested resource may not exist or you may not have access to it".toList]
  | .validation msg =>
    ["[ERROR] Validation error during ".toList ++ operation,
     "Details: ".toList ++ msg]
  | .timeout =>
    ["[ERROR] Request timed out during ".toList ++ operation,
     "The server may be busy or your network connection may be slow".toList]
  | .server =>
    ["[ERROR] Server error during ".toList ++ operation,
     "The server encountered an error. Please try again later".toList]
  | .mindzieOther msg =>
    ["[ERROR] API error during ".toList ++ operation ++ ": ".toList ++ msg]
  | .unexpected msg =>
    ["[ERROR] Unexpected error during ".toList ++ operation ++ ": ".toList ++ msg]

/-! ## mask_sensitive_string (common_utils.py) -/

/-- `mask_sensitive_string(sensitive_str, visible_chars)` (common_utils.py
lines 170-183): full asterisk masking for falsy or short input, otherwise
first `visible_chars` + `"..."` + last `visible_chars`. -/
def mask_sensitive_string (s : PyStr) (visible_chars : Nat) : PyStr :=
  if s.isEmpty || s.length ≤ visible_chars * 2 then
    if s.isEmpty then [] else List.replicate s.length '*'
  else
    s.take visible_chars ++ "...".toList ++ s.drop (s.length - visible_chars)

/-! ## Helper lemmas -/

/-- Boolean `List.contains` from propositional membership. -/
theorem contains_of_mem {l : List PyStr} {x : PyStr} (h : x ∈ l) :
    l.contains x = true := by simpa using h

/-- Boolean `List.contains` refuted from non-membership. -/
theorem contains_eq_false_of_not_mem {l : List PyStr} {x : PyStr} (h : x ∉ l) :
    l.contains x = false := by simpa using h

/-- Every success status is in the terminal list. -/
theorem success_subset_terminal {s : PyStr} (h : s ∈ success_statuses) :
    s ∈ terminal_statuses := by
  fin_cases h <;> decide

/-- Every failure status is in the terminal list. -/
theorem failure_subset_terminal {s : PyStr} (h : s ∈ monitor_failure_statuses) :
    s ∈ terminal_statuses := by
  fin_cases h <;> decide

/-- No failure status is a success status. -/
theorem failure_not_success {s : PyStr} (h : s ∈ monitor_failure_statuses) :
    s ∉ success_statuses := by
  fin_cases h <;> decide

/-- Lowering the `'Error: '` prefix. -/
theorem pyLower_error_status (msg : PyStr) :
    pyLower (get_current_status_error msg) = "error: ".toList ++ pyLower msg := by
  simp [pyLower, get_current_status_error]

/-- A string starting with `"error: "` is none of the eight terminal
statuses. -/
theorem error_status_not_mem_terminal (x : PyStr) :
    "error: ".toList ++ x ∉ terminal_statuses := by
  intro hmem
  simp only [terminal_statuses, List.mem_cons, List.not_mem_nil, or_false] at hmem
  rcases hmem with h | h | h | h | h | h | h | h <;>
    · have h7 := congrArg (List.take 7) h
      rw [List.take_append_of_le_length (by decide)] at h7
      revert h7
      decide

/-- Unfolding one iteration of the `ExecutionMonitor.monitor` loop. -/
theorem monitorFrom_succ (fetch : Nat → PyStr) (interval maxDuration fuel i : Nat) :
    monitorFrom fetch interval maxDuration (fuel + 1) i =
      if maxDuration < i * interval then
        some (MonitorOutcome.timedOut, i)
      else if is_terminal_status (fetch i) then
        if success_statuses.contains (pyLower (fetch i)) then
          some (MonitorOutcome.success (fetch i), i + 1)
        else
          some (MonitorOutcome.failure (fetch i), i + 1)
      else
        monitorFrom fetch interval maxDuration fuel (i + 1) := rfl

/-- Unfolding one iteration of the `step_3_monitor_execution` loop. -/
theorem step3From_succ (fetch : Nat → Option PyStr) (maxWait fuel i : Nat) :
    step3From fetch maxWait (fuel + 1) i =
      if i * 5 < maxWait then
        match fetch i with
        | some status =>
          if workflow_terminal_statuses.contains (pyLower status) then
            if success_statuses.contains (pyLower status) then
              some (StepResult.finishedSuccess status, i + 1)
            else
              some (StepResult.finishedFailure status, i + 1)
          else
            step3From fetch maxWait fuel (i + 1)
        | none => some (StepResult.fetchFailed, i + 1)
      else
        some (StepResult.timedOut, i) := rfl

/-- With a positive interval and enough fuel the monitor loop always yields
a result; the fetch count is at least the start iteration, and equals it
only when the loop is already past the deadline there. -/
theorem monitorFrom_total (fetch : Nat → PyStr) (interval maxDuration : Nat)
    (hI : 0 < interval) :
    ∀ fuel i, maxDuration / interval + 1 - i < fuel →
      ∃ r n, monitorFrom fetch interval maxDuration fuel i = some (r, n) ∧
        i ≤ n ∧ (n = i → maxDuration < i * interval) := by
  intro fuel
  induction fuel with
  | zero => intro i h; omega
  | succ f ih =>
    intro i h
    rw [monitorFrom_succ]
    by_cases hto : maxDuration < i * interval
    · exact ⟨MonitorOutcome.timedOut, i, by rw [if_pos hto], le_refl i, fun _ => hto⟩
    · have hle : i * interval ≤ maxDuration := Nat.not_lt.mp hto
      have hi : i ≤ maxDuration / interval := (Nat.le_div_iff_mul_le hI).mpr hle
      rw [if_neg hto]
      by_cases hterm : is_terminal_status (fetch i) = true
      · rw [if_pos hterm]
        by_cases hsucc : success_statuses.contains (pyLower (fetch i)) = true
        · exact ⟨_, i + 1, by rw [if_pos hsucc], by omega, fun hni => by omega⟩
        · exact ⟨_, i + 1, by rw [if_neg hsucc], by omega, fun hni => by omega⟩
      · rw [if_neg hterm]
        obtain ⟨r, n, heq, hn, _⟩ := ih (i + 1) (by omega)
        exact ⟨r, n, heq, by omega, fun hni => absurd hni (by omega)⟩

/-- With a positive interval and a fetch trace that never reports a terminal
status, the monitor loop times out at the first iteration past the deadline,
having fetched `maxDuration / interval + 1` times. -/
theorem monitorFrom_nonterminal (fetch : Nat → PyStr) (interval maxDuration : Nat)
    (hI : 0 < interval) (hNT : ∀ j, is_terminal_status (fetch j) = false) :
    ∀ fuel i, i ≤ maxDuration / interval + 1 →
      maxDuration / interval + 1 - i < fuel →
      monitorFrom fetch interval maxDuration fuel i =
        some (MonitorOutcome.timedOut, maxDuration / interval + 1) := by
  intro fuel
  induction fuel with
  | zero => intro i h1 h2; omega
  | succ f ih =>
    intro i h1 h2
    rw [monitorFrom_succ]
    by_cases hto : maxDuration < i * interval
    · have hgt : maxDuration / interval < i := (Nat.div_lt_iff_lt_mul hI).mpr hto
      have hii : i = maxDuration / interval + 1 := by omega
      rw [if_pos hto, hii]
    · have hle : i * interval ≤ maxDuration := Nat.not_lt.mp hto
      have hi : i ≤ maxDuration / interval := (Nat.le_div_iff_mul_le hI).mpr hle
      rw [if_neg hto, if_neg (by simp [hNT i])]
      exact ih (i + 1) (by omega) (by omega)

/-- The failure outcomes among the statuses that
`step_3_monitor_execution` treats as terminal. -/
def workflow_failure_statuses : List PyStr :=
  ["failed".toList, "error".toList, "cancelled".toList]

/-- Every success status is in the workflow terminal list. -/
theorem success_subset_workflow_terminal {s : PyStr} (h : s ∈ success_statuses) :
    s ∈ workflow_terminal_statuses := by
  fin_cases h <;> decide

/-- Every workflow failure status is in the workflow terminal list. -/
theorem workflow_failure_subset_terminal {s : PyStr}
    (h : s ∈ workflow_failure_statuses) : s ∈ workflow_terminal_statuses := by
  fin_cases h <;> decide

/-- No workflow failure status is a success status. -/
theorem workflow_failure_not_success {s : PyStr}
    (h : s ∈ workflow_failure_statuses) : s ∉ success_statuses := by
  fin_cases h <;> decide

/-- Unfolding one iteration of the `step_3_monitor_execution` loop when the
fetch returns a record. -/
theorem step3From_succ_some (fetch : Nat → Option PyStr) (maxWait fuel i : Nat)
    (s : PyStr) (hfetch : fetch i = some s) :
    step3From fetch maxWait (fuel + 1) i =
      if i * 5 < maxWait then
        if workflow_terminal_statuses.contains (pyLower s) then
          if success_statuses.contains (pyLower s) then
            some (StepResult.finishedSuccess s, i + 1)
          else
            some (StepResult.finishedFailure s, i + 1)
        else
          step3From fetch maxWait fuel (i + 1)
      else
        some (StepResult.timedOut, i) := by
  rw [step3From_succ, hfetch]

/-- C1 (amended): the two polling loops do not use the same terminal set.
`ExecutionMonitor.monitor` treats exactly the eight statuses of
`terminal_statuses` as terminal, returning on that very poll with the
success outcome for `{completed, finished, success}` and the failure
outcome for `{failed, error, cancelled, aborted, timeout}` (case-insensitively),
and treating no other status as terminal.
`ActionWorkflow.step_3_monitor_execution` treats only the six statuses of
`workflow_terminal_statuses` as terminal (success for
`{completed, finished, success}`, failure for `{failed, error, cancelled}`);
`aborted` and `timeout` are not terminal for it, so polling continues. -/
theorem C1_terminal_status_dispatch :
    (∀ (fetch : Nat → PyStr) (interval maxDuration fuel i : Nat),
        i * interval ≤ maxDuration →
        pyLower (fetch i) ∈ success_statuses →
        monitorFrom fetch interval maxDuration (fuel + 1) i =
          some (MonitorOutcome.success (fetch i), i + 1)) ∧
    (∀ (fetch : Nat → PyStr) (interval maxDuration fuel i : Nat),
        i * interval ≤ maxDuration →
        pyLower (fetch i) ∈ monitor_failure_statuses →
        monitorFrom fetch interval maxDuration (fuel + 1) i =
          some (MonitorOutcome.failure (fetch i), i + 1)) ∧
    (∀ (fetch : Nat → PyStr) (interval maxDuration fuel i : Nat),
        i * interval ≤ maxDuration →
        pyLower (fetch i) ∉ terminal_statuses →
        monitorFrom fetch interval maxDuration (fuel + 1) i =
          monitorFrom fetch interval maxDuration fuel (i + 1)) ∧
    (∀ (fetch : Nat → Option PyStr) (s : PyStr) (maxWait fuel i : Nat),
        i * 5 < maxWait → fetch i = some s →
        pyLower s ∈ success_statuses →
        step3From fetch maxWait (fuel + 1) i =
          some (StepResult.finishedSuccess s, i + 1)) ∧
    (∀ (fetch : Nat → Option PyStr) (s : PyStr) (maxWait fuel i : Nat),
        i * 5 < maxWait → fetch i = some s →
        pyLower s ∈ workflow_failure_statuses →
        step3From fetch maxWait (fuel + 1) i =
          some (StepResult.finishedFailure s, i + 1)) ∧
    (∀ (fetch : Nat → Option PyStr) (s : PyStr) (maxWait fuel i : Nat),
        i * 5 < maxWait → fetch i = some s →
        pyLower s ∉ workflow_terminal_statuses →
        step3From fetch maxWait (fuel + 1) i =
          step3From fetch maxWait fuel (i + 1)) ∧
    ("aborted".toList ∈ terminal_statuses ∧
     "timeout".toList ∈ terminal_statuses ∧
     "aborted".toList ∉ workflow_terminal_statuses ∧
     "timeout".toList ∉ workflow_terminal_statuses) := by
  refine ⟨?_, ?_, ?_, ?_, ?_, ?_, by decide⟩
  · intro fetch interval maxDuration fuel i hle hmem
    have hterm : is_terminal_status (fetch i) = true :=
      contains_of_mem (success_subset_terminal hmem)
    rw [monitorFrom_succ, if_neg (Nat.not_lt.mpr hle), if_pos hterm,
      if_pos (contains_of_mem hmem)]
  · intro fetch interval maxDuration fuel i hle hmem
    have hterm : is_terminal_status (fetch i) = true :=
      contains_of_mem (failure_subset_terminal hmem)
    rw [monitorFrom_succ, if_neg (Nat.not_lt.mpr hle), if_pos hterm,
      if_neg (fun hc => failure_not_success hmem (by simpa using hc))]
  · intro fetch interval maxDuration fuel i hle hmem
    have hterm : is_terminal_status (fetch i) = false :=
      contains_eq_false_of_not_mem hmem
    rw [monitorFrom_succ, if_neg (Nat.not_lt.mpr hle), if_neg (by simp [hterm])]
  · intro fetch s maxWait fuel i hlt hfetch hmem
    rw [step3From_succ_some fetch maxWait fuel i s hfetch, if_pos hlt,
      if_pos (contains_of_mem (success_subset_workflow_terminal hmem)),
      if_pos (contains_of_mem hmem)]
  · intro fetch s maxWait fuel i hlt hfetch hmem
    rw [step3From_succ_some fetch maxWait fuel i s hfetch, if_pos hlt,
      if_pos (contains_of_mem (workflow_failure_subset_terminal hmem)),
      if_neg (fun hc => workflow_failure_not_success hmem (by simpa using hc))]
  · intro fetch s maxWait fuel i hlt hfetch hmem
    rw [step3From_succ_some fetch maxWait fuel i s hfetch, if_pos hlt,
      if_neg (fun hc => hmem (by simpa using hc))]

/-- Witness for C1: concrete polls exercising the dispatch, with every
hypothesis discharged at the given inputs. -/
theorem C1_witness :
    monitorFrom (fun _ => "Completed".toList) 5 30 (6 + 1) 0 =
      some (MonitorOutcome.success "Completed".toList, 1) ∧
    monitorFrom (fun _ => "aborted".toList) 5 30 (6 + 1) 0 =
      some (MonitorOutcome.failure "aborted".toList, 1) ∧
    step3From (fun _ => some "Failed".toList) 300 (60 + 1) 0 =
      some (StepResult.finishedFailure "Failed".toList, 1) :=
  ⟨C1_terminal_status_dispatch.1 (fun _ => "Completed".toList) 5 30 6 0
      (by decide) (by decide),
   C1_terminal_status_dispatch.2.1 (fun _ => "aborted".toList) 5 30 6 0
      (by decide) (by decide),
   C1_terminal_status_dispatch.2.2.2.2.1 (fun _ => some "Failed".toList)
      "Failed".toList 300 60 0 (by decide) rfl (by decide)⟩

/-- Counterexample for C1 as stated: a fetch that always reports status
`"aborted"` never makes `step_3_monitor_execution` return a failure result
on that poll; with `max_wait_time = 10` the loop polls twice and falls
through to timeout, contradicting the claim that `aborted` is terminal for
every polling loop in the repository. -/
theorem C1_counterexample :
    ActionWorkflow.step_3_monitor_execution (fun _ => some "aborted".toList) 10 =
      some (StepResult.timedOut, 2) ∧
    ActionWorkflow.step_3_monitor_execution (fun _ => some "aborted".toList) 10 ≠
      some (StepResult.finishedFailure "aborted".toList, 1) := by
  exact ⟨by decide, by decide⟩

/-- C2 (amended): if every fetch reports a non-terminal status then for
every poll interval > 0 and every max duration the loop terminates and
returns the timeout result — but at the first poll where the elapsed time
STRICTLY exceeds the max duration (the code tests
`elapsed_time > max_duration`, not `elapsed >= max_duration`), after exactly
`maxDuration / interval + 1` fetch attempts; with interval 1s and max
duration 5s that is 6 fetch attempts. -/
theorem C2_nonterminal_timeout (fetch : Nat → PyStr) (interval maxDuration : Nat)
    (hI : 0 < interval) (hNT : ∀ j, is_terminal_status (fetch j) = false) :
    ExecutionMonitor.monitor fetch interval maxDuration =
      some (MonitorOutcome.timedOut, maxDuration / interval + 1) := by
  rw [ExecutionMonitor.monitor]
  exact monitorFrom_nonterminal fetch interval maxDuration hI hNT
    (maxDuration / interval + 2) 0 (Nat.zero_le _)
    (by rw [Nat.sub_zero]; exact Nat.lt_succ_self _)

/-- Witness for C2 (amended): the spec's own scenario, interval 1s and max
duration 5s with a fetch stuck on `"running"`, runs to timeout after 6
fetch attempts. -/
theorem C2_witness :
    0 < 1 ∧ ExecutionMonitor.monitor (fun _ => "running".toList) 1 5 =
      some (MonitorOutcome.timedOut, 6) :=
 by
  have h : is_terminal_status "running".toList = false := by decide
  exact ⟨by decide,
    C2_nonterminal_timeout (fun _ => "running".toList) 1 5 (by decide)
      (fun _ => h)⟩

/-- Counterexample for C2 as stated: with interval 5s, max duration 5s and a
fetch stuck on `"running"`, the poll at elapsed time 5 satisfies
`elapsed ≥ max_duration`, yet the poller does not return a timeout there: it
fetches again and only times out at elapsed 10, for 2 fetch attempts where
the claimed `elapsed ≥ max_duration` exit predicts 1. -/
theorem C2_counterexample :
    ExecutionMonitor.monitor (fun _ => "running".toList) 5 5 =
      some (MonitorOutcome.timedOut, 2) ∧
    ExecutionMonitor.monitor (fun _ => "running".toList) 5 5 ≠
      some (MonitorOutcome.timedOut, 1) :=
  ⟨by decide, by decide⟩

/-- C3 (amended): in `ExecutionMonitor.monitor` the max-duration test
(strict `elapsed_time > max_duration`, line 113) is applied BEFORE the fetch
of each iteration, not after it.  Consequently: (1) since the elapsed time
of the first iteration is 0, every run with positive interval performs at
least one fetch; (2) at an iteration already strictly past the deadline the
loop returns the timeout result without fetching, whatever the fetch would
have reported; (3) a fetch performed at an iteration with
`elapsed ≤ max_duration` that reports a terminal status is returned as the
result rather than a timeout. -/
theorem C3_order_of_tests (fetch : Nat → PyStr) (interval maxDuration : Nat)
    (hI : 0 < interval) :
    (∃ r n, ExecutionMonitor.monitor fetch interval maxDuration = some (r, n) ∧
      1 ≤ n) ∧
    (∀ fuel i, maxDuration < i * interval →
      monitorFrom fetch interval maxDuration (fuel + 1) i =
        some (MonitorOutcome.timedOut, i)) ∧
    (∀ fuel i, i * interval ≤ maxDuration →
      is_terminal_status (fetch i) = true →
      monitorFrom fetch interval maxDuration (fuel + 1) i =
        if success_statuses.contains (pyLower (fetch i)) then
          some (MonitorOutcome.success (fetch i), i + 1)
        else
          some (MonitorOutcome.failure (fetch i), i + 1)) := by
  refine ⟨?_, ?_, ?_⟩
  · obtain ⟨r, n, heq, _, himp⟩ :=
      monitorFrom_total fetch interval maxDuration hI
        (maxDuration / interval + 2) 0
        (by rw [Nat.sub_zero]; exact Nat.lt_succ_self _)
    refine ⟨r, n, heq, ?_⟩
    rcases Nat.eq_zero_or_pos n with h0 | h1
    · have := himp h0
      omega
    · exact h1
  · intro fuel i h
    rw [monitorFrom_succ, if_pos h]
  · intro fuel i hle hterm
    rw [monitorFrom_succ, if_neg (Nat.not_lt.mpr hle), if_pos hterm]

/-- Witness for C3 (amended): even with max duration 0 the poller performs a
fetch (elapsed 0 is not strictly greater than 0). -/
theorem C3_witness :
    0 < 1 ∧ (∃ r n,
      ExecutionMonitor.monitor (fun _ => "running".toList) 1 0 = some (r, n) ∧
      1 ≤ n) :=
  ⟨by decide, (C3_order_of_tests (fun _ => "running".toList) 1 0 (by decide)).1⟩

/-- Counterexample for C3 as stated: with interval 3s and max duration 2s,
the fetch of the second iteration would report the terminal status
`"completed"`, but the loop checks `elapsed > max_duration` (3 > 2) before
fetching and returns a timeout after a single fetch, contradicting the
claim that the record is fetched and tested for a terminal status before
the max-duration test on every iteration. -/
theorem C3_counterexample :
    ExecutionMonitor.monitor
        (fun i => if i = 0 then "running".toList else "completed".toList) 3 2 =
      some (MonitorOutcome.timedOut, 1) ∧
    ExecutionMonitor.monitor
        (fun i => if i = 0 then "running".toList else "completed".toList) 3 2 ≠
      some (MonitorOutcome.success "completed".toList, 2) :=
  ⟨by decide, by decide⟩

/-- C4 (confirmed): every exception raised by the remote fetch is caught by
`get_current_status`, which returns the status string `'Error: ...'`; such
a string is never in the terminal set (its lowercase form starts with
`"error: "`, which equals none of the eight terminal statuses), so at a
live iteration the monitor loop simply continues polling. -/
theorem C4_fetch_error_never_terminal :
    (∀ msg : PyStr, is_terminal_status (get_current_status_error msg) = false) ∧
    (∀ (fetch : Nat → PyStr) (interval maxDuration fuel i : Nat) (msg : PyStr),
      i * interval ≤ maxDuration →
      fetch i = get_current_status_error msg →
      monitorFrom fetch interval maxDuration (fuel + 1) i =
        monitorFrom fetch interval maxDuration fuel (i + 1)) := by
  have hnt : ∀ msg : PyStr,
      is_terminal_status (get_current_status_error msg) = false := by
    intro msg
    rw [is_terminal_status, pyLower_error_status]
    exact contains_eq_false_of_not_mem (error_status_not_mem_terminal (pyLower msg))
  refine ⟨hnt, ?_⟩
  intro fetch interval maxDuration fuel i msg hle hfetch
  rw [monitorFrom_succ, if_neg (Nat.not_lt.mpr hle),
    if_neg (by simp [hfetch, hnt msg])]

/-- Witness for C4: a concrete fetch exception message is not terminal and
makes the loop continue. -/
theorem C4_witness :
    is_terminal_status
      (get_current_status_error "Connection refused".toList) = false ∧
    monitorFrom (fun _ => get_current_status_error "Connection refused".toList)
        5 30 (6 + 1) 0 =
      monitorFrom (fun _ => get_current_status_error "Connection refused".toList)
        5 30 6 1 :=
  ⟨C4_fetch_error_never_terminal.1 "Connection refused".toList,
   C4_fetch_error_never_terminal.2
     (fun _ => get_current_status_error "Connection refused".toList)
     5 30 6 0 "Connection refused".toList (by decide) rfl⟩

/-- True exactly for `SourceItem.callFailed` (the per-source create call
raised and was caught). -/
def SourceItem.isFailedCall : SourceItem → Bool
  | .callFailed => true
  | _ => false

/-- The extract loop on a source list without malformed entries, from an
arbitrary accumulator: it returns normally, having appended every
successful source's dataset and added its record count. -/
theorem extract_loop_ok (sources : List SourceItem)
    (hs : ∀ s ∈ sources, s.isMalformed = false) (acc : ExtractionResults) :
    extract_loop sources acc = .ok
      { sources_processed :=
          acc.sources_processed + (sources.filterMap SourceItem.toDataset).length
        total_records := acc.total_records +
          ((sources.filterMap SourceItem.toDataset).map Dataset.getRecordCount).sum
        datasets_created :=
          acc.datasets_created ++ sources.filterMap SourceItem.toDataset } := by
  induction sources generalizing acc with
  | nil => simp [extract_loop]
  | cons s rest ih =>
    have hrest : ∀ t ∈ rest, t.isMalformed = false :=
      fun t ht => hs t (List.mem_cons_of_mem s ht)
    cases s with
    | ok d =>
      rw [extract_loop, ih hrest]
      simp [SourceItem.toDataset, List.filterMap_cons]
      omega
    | callFailed =>
      rw [extract_loop, ih hrest]
      simp [SourceItem.toDataset, List.filterMap_cons]
    | malformed e =>
      have := hs (SourceItem.malformed e) (List.mem_cons_self _ _)
      simp [SourceItem.isMalformed] at this

/-- Without malformed sources, successes and caught failures partition the
source list. -/
theorem extract_counts (sources : List SourceItem)
    (hs : ∀ s ∈ sources, s.isMalformed = false) :
    (sources.filterMap SourceItem.toDataset).length +
      (sources.filter SourceItem.isFailedCall).length = sources.length := by
  induction sources with
  | nil => simp
  | cons s rest ih =>
    have hrest : ∀ t ∈ rest, t.isMalformed = false :=
      fun t ht => hs t (List.mem_cons_of_mem s ht)
    have hih := ih hrest
    cases s with
    | ok d =>
      simp [SourceItem.toDataset, SourceItem.isFailedCall, List.filterMap_cons,
        List.filter_cons]
      omega
    | callFailed =>
      simp [SourceItem.toDataset, SourceItem.isFailedCall, List.filterMap_cons,
        List.filter_cons]
      omega
    | malformed e =>
      have := hs (SourceItem.malformed e) (List.mem_cons_self _ _)
      simp [SourceItem.isMalformed] at this

/-- The extract loop raises iff some source is malformed. -/
theorem extract_loop_error_iff (sources : List SourceItem)
    (acc : ExtractionResults) :
    (∃ e, extract_loop sources acc = .error e) ↔
      ∃ s ∈ sources, s.isMalformed = true := by
  induction sources generalizing acc with
  | nil => simp [extract_loop]
  | cons s rest ih =>
    cases s with
    | ok d => simp [extract_loop, SourceItem.isMalformed, ih]
    | callFailed => simp [extract_loop, SourceItem.isMalformed, ih]
    | malformed e => simp [extract_loop, SourceItem.isMalformed]

/-- C5 (confirmed): `ETLPipeline.extract_data` over N sources of which the
per-source call fails (raises, and is caught) for exactly M processes all
of them sequentially without aborting; it reports
`sources_processed = N - M` and a `total_records` that is exactly the sum
of the record counts of the N - M successful sources. -/
theorem C5_extract_data_counts (sources : List SourceItem)
    (hs : ∀ s ∈ sources, s.isMalformed = false) :
    ∃ r, ETLPipeline.extract_data sources = .ok r ∧
      r.sources_processed =
        sources.length - (sources.filter SourceItem.isFailedCall).length ∧
      r.total_records =
        ((sources.filterMap SourceItem.toDataset).map Dataset.getRecordCount).sum ∧
      r.datasets_created = sources.filterMap SourceItem.toDataset := by
  refine ⟨_, by rw [ETLPipeline.extract_data, extract_loop_ok sources hs], ?_, ?_, ?_⟩
  · have := extract_counts sources hs
    simp only []
    omega
  · simp
  · simp

/-- Witness for C5: three sources of which one fails, processed into
`sources_processed = 2` and `total_records = 7000`. -/
theorem C5_witness :
    (∀ s ∈ [SourceItem.ok ⟨some 5000⟩, SourceItem.callFailed,
        SourceItem.ok ⟨some 2000⟩], s.isMalformed = false) ∧
    ∃ r, ETLPipeline.extract_data
        [SourceItem.ok ⟨some 5000⟩, SourceItem.callFailed,
         SourceItem.ok ⟨some 2000⟩] = .ok r ∧
      r.sources_processed = 3 - 1 ∧
      r.total_records = 7000 ∧
      r.datasets_created = [⟨some 5000⟩, ⟨some 2000⟩] := by
  have hs : ∀ s ∈ [SourceItem.ok ⟨some 5000⟩, SourceItem.callFailed,
      SourceItem.ok ⟨some 2000⟩], s.isMalformed = false := by decide
  exact ⟨hs, C5_extract_data_counts _ hs⟩

/-- C6 (confirmed): `ETLPipeline.run_pipeline` ends with status
`"completed"` (both in the returned summary and in `self.status`) whenever
no exception escapes the per-item `try/except` blocks — i.e. for every
combination of per-item call failures in the three stages — and it returns
the `"failed"` record, carrying the error string and the number of steps
completed so far, exactly when an exception escapes a stage (here: a
malformed source raising outside the extract loop's per-item `try`). -/
theorem C6_pipeline_status (sources : List SourceItem)
    (transforms : List TransformKind) (enrich : Nat → Nat → Option Unit)
    (targetIsDataset : Bool) (loadOutcome : Nat → Option Dataset) :
    ((∀ s ∈ sources, s.isMalformed = false) →
      ∃ summary,
        ETLPipeline.run_pipeline sources transforms enrich targetIsDataset
          loadOutcome = (PipelineResult.completed summary, "completed".toList)) ∧
    (∀ e, ETLPipeline.extract_data sources = .error e →
      ETLPipeline.run_pipeline sources transforms enrich targetIsDataset
        loadOutcome = (PipelineResult.failed e 0, "failed".toList)) ∧
    ((ETLPipeline.run_pipeline sources transforms enrich targetIsDataset
        loadOutcome).1.status = "failed".toList ↔
      ∃ s ∈ sources, s.isMalformed = true) := by
  refine ⟨?_, ?_, ?_⟩
  · intro hs
    rw [ETLPipeline.run_pipeline, ETLPipeline.extract_data,
      extract_loop_ok sources hs]
    exact ⟨_, rfl⟩
  · intro e he
    rw [ETLPipeline.run_pipeline, he]
  · rcases hcase : ETLPipeline.extract_data sources with e | r
    · rw [ETLPipeline.run_pipeline, hcase]
      simp only [PipelineResult.status]
      constructor
      · intro _
        exact (extract_loop_error_iff sources ⟨0, 0, []⟩).mp ⟨e, hcase⟩
      · intro _
        trivial
    · rw [ETLPipeline.run_pipeline, hcase]
      simp only [PipelineResult.status]
      constructor
      · intro hcontra
        exact absurd hcontra (by decide)
      · intro hmal
        obtain ⟨e, he⟩ := (extract_loop_error_iff sources ⟨0, 0, []⟩).mpr hmal
        rw [ETLPipeline.extract_data] at hcase
        rw [hcase] at he
        exact absurd he (by simp)

/-- Witness for C6: a pipeline with one failing per-item call still
completes, and a pipeline whose source list contains a malformed entry
returns the failed record. -/
theorem C6_witness :
    (∃ summary,
      ETLPipeline.run_pipeline [SourceItem.ok ⟨some 5000⟩, SourceItem.callFailed]
        [TransformKind.validation] (fun _ _ => some ()) true
        (fun _ => some ⟨some 5000⟩) =
        (PipelineResult.completed summary, "completed".toList)) ∧
    ETLPipeline.run_pipeline [SourceItem.malformed "boom".toList]
        [] (fun _ _ => some ()) true (fun _ => none) =
      (PipelineResult.failed "boom".toList 0, "failed".toList) :=
  ⟨(C6_pipeline_status [SourceItem.ok ⟨some 5000⟩, SourceItem.callFailed]
      [TransformKind.validation] (fun _ _ => some ()) true
      (fun _ => some ⟨some 5000⟩)).1 (by decide),
   (C6_pipeline_status [SourceItem.malformed "boom".toList]
      [] (fun _ _ => some ()) true (fun _ => none)).2.1 "boom".toList rfl⟩

/-- C10 (confirmed): in a successful `run_pipeline` summary,
`total_records_processed` is exactly the extract stage's `total_records`:
in `sum(step.get('total_records', 0) for step in self.steps)` the transform
record contributes 0 (it has no `total_records` key) and the load record
contributes 0 as well (its count is stored under `total_records_loaded`),
so loaded records are never added to the processed total. -/
theorem C10_total_records_processed (sources : List SourceItem)
    (transforms : List TransformKind) (enrich : Nat → Nat → Option Unit)
    (targetIsDataset : Bool) (loadOutcome : Nat → Option Dataset)
    (er : ExtractionResults) (summary : PipelineSummary)
    (hex : ETLPipeline.extract_data sources = .ok er)
    (hrun : (ETLPipeline.run_pipeline sources transforms enrich targetIsDataset
      loadOutcome).1 = PipelineResult.completed summary) :
    summary.total_records_processed = er.total_records ∧
    (∀ tr : TransformationResults, (StepRecord.transform tr).getTotalRecords = 0) ∧
    (∀ lr : LoadResults, (StepRecord.load lr).getTotalRecords = 0) := by
  refine ⟨?_, fun _ => rfl, fun _ => rfl⟩
  rw [ETLPipeline.run_pipeline, hex] at hrun
  simp only [PipelineResult.completed.injEq] at hrun
  rw [← hrun]
  simp [StepRecord.getTotalRecords]

/-- Witness for C10: a concrete run whose load stage loads 700 records while
the extract stage extracted 5000; the summary's processed total is the
extract total, not the loaded total. -/
theorem C10_witness :
    ETLPipeline.extract_data [SourceItem.ok ⟨some 5000⟩, SourceItem.callFailed] =
      .ok ⟨1, 5000, [⟨some 5000⟩]⟩ ∧
    (ETLPipeline.run_pipeline [SourceItem.ok ⟨some 5000⟩, SourceItem.callFailed]
        [TransformKind.validation] (fun _ _ => some ()) true
        (fun _ => some ⟨some 700⟩)).1 =
      PipelineResult.completed ⟨3, 5000, [⟨some 700⟩]⟩ ∧
    (⟨3, 5000, [⟨some 700⟩]⟩ : PipelineSummary).total_records_processed =
      (⟨1, 5000, [⟨some 5000⟩]⟩ : ExtractionResults).total_records := by
  refine ⟨rfl, rfl, ?_⟩
  exact (C10_total_records_processed
    [SourceItem.ok ⟨some 5000⟩, SourceItem.callFailed]
    [TransformKind.validation] (fun _ _ => some ()) true
    (fun _ => some ⟨some 700⟩) ⟨1, 5000, [⟨some 5000⟩]⟩
    ⟨3, 5000, [⟨some 700⟩]⟩ rfl rfl).1

/-- C7 (confirmed): `load_credentials` returns `(None, None, None)` and
`get_client` prints the credential error and returns `None` whenever the
tenant id or the API key is unset or empty; otherwise the returned base URL
is the value of `MINDZIE_API_URL` with trailing `'/'` stripped, defaulting
to `https://dev.mindziestudio.com` when the variable is unset. -/
theorem C7_credentials (env : Env) :
    ((pyTruthy env.tenant = false ∨ pyTruthy env.apiKey = false) →
      load_credentials env = (none, none, none) ∧
      get_client env = GetClientResult.credentialError) ∧
    (pyTruthy env.tenant = true → pyTruthy env.apiKey = true →
      (load_credentials env).2.2 =
        some (rstripSlash (env.apiUrl.getD default_base_url))) ∧
    (env.apiUrl = none → pyTruthy env.tenant = true →
      pyTruthy env.apiKey = true →
      (load_credentials env).2.2 = some default_base_url) := by
  refine ⟨?_, ?_, ?_⟩
  · intro h
    have hcond : (!pyTruthy env.tenant || !pyTruthy env.apiKey) = true := by
      rcases h with h | h <;> simp [h]
    have hload : load_credentials env = (none, none, none) := by
      rw [load_credentials]
      simp only [hcond, if_true]
    refine ⟨hload, ?_⟩
    rw [get_client, hload]
    simp [pyTruthy]
  · intro ht hk
    rw [load_credentials]
    simp [ht, hk]
  · intro hu ht hk
    rw [load_credentials]
    simp only [ht, hk, hu, Bool.not_true, Bool.or_self, Bool.false_or,
      Option.getD_none, Option.getD_some, if_false]
    show (env.tenant, env.apiKey, some (rstripSlash default_base_url)).2.2 = _
    rw [show rstripSlash default_base_url = default_base_url from by decide]

/-- Witness for C7: an empty API key yields the credential error; a set URL
with trailing slashes is stripped; an unset URL falls back to the default. -/
theorem C7_witness :
    (load_credentials ⟨some "t".toList, some [], some "u".toList⟩ =
        (none, none, none) ∧
      get_client ⟨some "t".toList, some [], some "u".toList⟩ =
        GetClientResult.credentialError) ∧
    (load_credentials
        ⟨some "t".toList, some "k".toList, some "http://x///".toList⟩).2.2 =
      some (rstripSlash "http://x///".toList) ∧
    (load_credentials ⟨some "t".toList, some "k".toList, none⟩).2.2 =
      some default_base_url :=
  ⟨(C7_credentials ⟨some "t".toList, some [], some "u".toList⟩).1
      (Or.inr (by decide)),
   (C7_credentials
      ⟨some "t".toList, some "k".toList, some "http://x///".toList⟩).2.1
      (by decide) (by decide),
   (C7_credentials ⟨some "t".toList, some "k".toList, none⟩).2.2
      rfl (by decide) (by decide)⟩

/-- C8 (confirmed): for every exception category distinguished by
`handle_api_error` (authentication, not-found, validation, timeout, server,
other `MindzieAPIException`, and any unexpected exception) and every
operation string, the first printed line begins with `"[ERROR] "` and
identifies the category; the embedding as a total function into the printed
lines reflects that the Python function only prints: it returns `None`,
re-raises nothing and performs no retry. -/
theorem C8_handle_api_error (e : ApiError) (operation : PyStr) :
    ∃ l, (handle_api_error e operation).head? = some l ∧
      l.take 8 = "[ERROR] ".toList := by
  cases e with
  | authentication =>
    exact ⟨_, rfl, by rw [List.take_append_of_le_length (by decide)]; decide⟩
  | notFound =>
    exact ⟨_, rfl, by rw [List.take_append_of_le_length (by decide)]; decide⟩
  | validation msg =>
    exact ⟨_, rfl, by rw [List.take_append_of_le_length (by decide)]; decide⟩
  | timeout =>
    exact ⟨_, rfl, by rw [List.take_append_of_le_length (by decide)]; decide⟩
  | server =>
    exact ⟨_, rfl, by rw [List.take_append_of_le_length (by decide)]; decide⟩
  | mindzieOther msg =>
    exact ⟨_, rfl, by
      rw [List.append_assoc, List.append_assoc,
        List.take_append_of_le_length (by decide)]
      decide⟩
  | unexpected msg =>
    exact ⟨_, rfl, by
      rw [List.append_assoc, List.append_assoc,
        List.take_append_of_le_length (by decide)]
      decide⟩

/-- C9 (confirmed): `mask_sensitive_string` with the default
`visible_chars = 4` reveals at most the first and last 4 characters: any
two equal-length inputs agreeing on their first 4 and last 4 characters
mask identically, and every input of length at most 8 masks to asterisks
only (the empty string for empty input). -/
theorem C9_mask_noninterference :
    (∀ s₁ s₂ : PyStr, s₁.length = s₂.length → s₁.take 4 = s₂.take 4 →
      s₁.drop (s₁.length - 4) = s₂.drop (s₂.length - 4) →
      mask_sensitive_string s₁ 4 = mask_sensitive_string s₂ 4) ∧
    (∀ s : PyStr, s.length ≤ 8 →
      mask_sensitive_string s 4 = List.replicate s.length '*') := by
  have hshort : ∀ s : PyStr, s.length ≤ 8 →
      mask_sensitive_string s 4 = List.replicate s.length '*' := by
    intro s hle
    rw [mask_sensitive_string]
    have hcond : (s.isEmpty || decide (s.length ≤ 4 * 2)) = true := by
      simp
      omega
    rw [if_pos hcond]
    by_cases hemp : s.isEmpty = true
    · rw [if_pos hemp]
      have hz : s.length = 0 := by
        rw [List.isEmpty_iff.mp hemp]
        rfl
      rw [hz]
      rfl
    · rw [if_neg hemp]
  refine ⟨?_, hshort⟩
  intro s₁ s₂ hlen hfirst hlast
  by_cases hle : s₁.length ≤ 8
  · rw [hshort s₁ hle, hshort s₂ (by omega), hlen]
  · have hsplit : ∀ s : PyStr, 8 < s.length →
        ¬ (s.isEmpty || decide (s.length ≤ 4 * 2)) = true := by
      intro s hpos hcontra
      rcases (by simpa using hcontra : s = [] ∨ s.length ≤ 8) with h | h
      · rw [h] at hpos
        simp at hpos
      · omega
    have h1 := hsplit s₁ (by omega)
    have h2 := hsplit s₂ (by omega)
    rw [mask_sensitive_string, mask_sensitive_string, if_neg h1, if_neg h2,
      hfirst, hlast]

/-- Witness for C9: two 12-character secrets differing only in the middle
mask to the same string, and a 6-character secret masks to asterisks. -/
theorem C9_witness :
    mask_sensitive_string "abcdWXYZefgh".toList 4 =
      mask_sensitive_string "abcdQQQQefgh".toList 4 ∧
    mask_sensitive_string "secret".toList 4 = List.replicate 6 '*' :=
  ⟨C9_mask_noninterference.1 "abcdWXYZefgh".toList "abcdQQQQefgh".toList
      (by decide) (by decide) (by decide),
   C9_mask_noninterference.2 "secret".toList (by decide)⟩
